import Mathlib

/-!
Verification of the client-side orchestration layer of the ServionX privacy
browser shell.  The definitions below are a shallow embedding of the
TypeScript source (src/App.tsx, src/components/ITToolsPanel,
src/components/SettingsPanel, src/components/DownloadManager,
src/components/VirtualKeyboard).  React `useState` state is carried
explicitly as records; every backend round-trip (`invoke`) is modelled by an
explicit `Except` argument supplying the call's outcome, so an event handler
becomes a pure state-transition function of the old state and the backend
responses it awaited.  JavaScript platform functions used by the code
(`encodeURIComponent`, `parseInt`, `String.prototype.trim`, the falsy `||`
operator) are modelled byte-faithfully below.
-/

/-! ## JavaScript platform primitives

The JS string methods the source uses (`includes`, `startsWith`, `trim`,
`split`, `slice(0,-1)`) are modelled directly on the character list of the
string, following the ECMAScript definitions, so that every definition
reduces inside the kernel. -/

/-- JavaScript `s.includes(c)` for a single-character needle. -/
def jsContainsChar (s : String) (c : Char) : Bool :=
  s.data.contains c

/-- JavaScript `s.startsWith(p)`. -/
def jsStartsWith (s p : String) : Bool :=
  p.data.isPrefixOf s.data

/-- Whitespace for JavaScript `trim`: the common ASCII whitespace
characters plus no-break space. -/
def jsWhitespace (c : Char) : Bool :=
  c == ' ' || c == Char.ofNat 9 || c == Char.ofNat 10 || c == Char.ofNat 13 ||
  c == Char.ofNat 11 || c == Char.ofNat 12 || c == Char.ofNat 160

/-- JavaScript `s.trim()`. -/
def jsTrim (s : String) : String :=
  String.mk (((s.data.dropWhile jsWhitespace).reverse.dropWhile jsWhitespace).reverse)

def jsSplitCharAux (sep : Char) : List Char → List Char → List String
  | [], acc => [String.mk acc.reverse]
  | c :: rest, acc =>
    if c == sep then String.mk acc.reverse :: jsSplitCharAux sep rest []
    else jsSplitCharAux sep rest (c :: acc)

/-- JavaScript `s.split(sep)` for a one-character separator: the empty
string splits to `[""]` and separators at the ends produce empty pieces. -/
def jsSplitChar (s : String) (sep : Char) : List String :=
  jsSplitCharAux sep s.data []

/-- Characters left unescaped by JavaScript `encodeURIComponent`:
letters, digits, and `- _ . ! ~ * ' ( )`. -/
def isUnescapedInURIComponent (c : Char) : Bool :=
  c.isAlpha || c.isDigit || c == '-' || c == '_' || c == '.' || c == '!' ||
  c == '~' || c == '*' || c == Char.ofNat 39 || c == '(' || c == ')'

/-- Uppercase hexadecimal digit for a value below 16. -/
def hexDigitChar (n : Nat) : Char :=
  if n < 10 then Char.ofNat (48 + n) else Char.ofNat (55 + n)

/-- Percent-encoding of a single byte, e.g. 32 becomes "%20". -/
def percentEncodeByte (b : Nat) : String :=
  String.mk ['%', hexDigitChar (b / 16), hexDigitChar (b % 16)]

/-- UTF-8 byte sequence of a Unicode scalar value, as natural numbers. -/
def utf8Bytes (c : Char) : List Nat :=
  let n := c.toNat
  if n < 128 then [n]
  else if n < 2048 then [192 + n / 64, 128 + n % 64]
  else if n < 65536 then [224 + n / 4096, 128 + (n / 64) % 64, 128 + n % 64]
  else [240 + n / 262144, 128 + (n / 4096) % 64, 128 + (n / 64) % 64, 128 + n % 64]

/-- JavaScript `encodeURIComponent`: unescaped characters pass through,
every other character is replaced by the percent-encoding of its UTF-8
bytes.  (On well-formed strings the UTF-16 surrogate handling of the JS
built-in coincides with UTF-8 encoding of the scalar values.) -/
def encodeURIComponent (s : String) : String :=
  String.join (s.data.map (fun c =>
    if isUnescapedInURIComponent c then String.singleton c
    else String.join ((utf8Bytes c).map percentEncodeByte)))

/-- Value of a decimal digit character. -/
def decDigitVal (c : Char) : Nat := c.toNat - 48

/-- Hexadecimal digit test for JavaScript `parseInt` with a `0x` prefix. -/
def isHexDigitChar (c : Char) : Bool :=
  c.isDigit || (97 ≤ c.toNat && c.toNat ≤ 102) || (65 ≤ c.toNat && c.toNat ≤ 70)

/-- Value of a hexadecimal digit character (either case). -/
def hexDigitVal (c : Char) : Nat :=
  if c.isDigit then c.toNat - 48
  else if 97 ≤ c.toNat then c.toNat - 87
  else c.toNat - 55

/-- Accumulate a digit list into a natural number in the given base. -/
def digitsToNat (base : Nat) (val : Char → Nat) (ds : List Char) : Nat :=
  ds.foldl (fun acc c => acc * base + val c) 0

/-- Parse the maximal prefix of digits; `none` when there is no digit at all
(JavaScript `parseInt` returns `NaN` in that case). -/
def parseDigitRun (isDig : Char → Bool) (base : Nat) (val : Char → Nat)
    (cs : List Char) : Option Nat :=
  let ds := cs.takeWhile isDig
  if ds.isEmpty then none else some (digitsToNat base val ds)

/-- Unsigned part of JavaScript `parseInt` with no radix argument: a `0x` or
`0X` prefix switches to hexadecimal, otherwise the maximal decimal prefix is
taken. -/
def jsParseIntUnsigned : List Char → Option Nat
  | '0' :: 'x' :: rest => parseDigitRun isHexDigitChar 16 hexDigitVal rest
  | '0' :: 'X' :: rest => parseDigitRun isHexDigitChar 16 hexDigitVal rest
  | cs => parseDigitRun Char.isDigit 10 decDigitVal cs

/-- JavaScript `parseInt(s)` (radix unspecified): skip leading whitespace,
accept an optional sign, then parse the maximal digit prefix; `none` models
`NaN`.  (JS numbers are floats, but every value produced here in this code
base is a small integer, so exact integers are faithful.) -/
def jsParseInt (s : String) : Option Int :=
  match (jsTrim s).data with
  | '-' :: rest => (jsParseIntUnsigned rest).map (fun n => -(n : Int))
  | '+' :: rest => (jsParseIntUnsigned rest).map (fun n => (n : Int))
  | cs => (jsParseIntUnsigned cs).map (fun n => (n : Int))

/-- JavaScript array access `l[i]` for a possibly negative index: negative
indices yield `undefined` (here `none`). -/
def jsIndex {α : Type} (l : List α) (i : Int) : Option α :=
  if i < 0 then none else l[i.toNat]?

/-- Substring test, modelling JavaScript `String.prototype.includes`. -/
def strContainsSubstr (s sub : String) : Bool :=
  (List.range (s.data.length + 1)).any (fun i => sub.data.isPrefixOf (s.data.drop i))

/-! ## TabRegistry (src/App.tsx)

Tabs and the active-tab pointer live in two React states (`tabs`,
`activeTabId`).  Fresh tab ids come from `Date.now().toString()`; the
timestamp is passed in as a `Nat` argument. -/

structure Tab where
  id : String
  title : String
  url : String
  isLoading : Bool
  isSecure : Bool
deriving DecidableEq

/-- The blank tab created by `addTab`, by `closeTab` when the registry would
become empty, and at app start (App.tsx lines 19-21, 72-82, 90). -/
def freshTab (id : String) : Tab :=
  { id := id, title := "New Tab", url := "", isLoading := false, isSecure := true }

structure TabState where
  tabs : List Tab
  activeTabId : String
deriving DecidableEq

/-- Initial state: a single blank tab with id "1" (App.tsx lines 19-22). -/
def initTabState : TabState :=
  { tabs := [freshTab "1"], activeTabId := "1" }

/-- `addTab` (App.tsx lines 72-82): append a blank tab with a fresh
timestamp id and make it active. -/
def addTab (s : TabState) (ts : Nat) : TabState :=
  let newTab := freshTab (toString ts)
  { tabs := s.tabs ++ [newTab], activeTabId := newTab.id }

/-- First tab's id; only consulted on a non-empty list (the JS code reads
`newTabs[0].id` after establishing the list is non-empty). -/
def headId (l : List Tab) : String :=
  match l with
  | [] => ""
  | t :: _ => t.id

/-- The `setActiveTabId` updater inside `closeTab` (App.tsx lines 96-102):
find the old active index, filter out the closed tab, return "" when no tab
remains, otherwise clamp the index and read the id there, with the JS `||`
fallback to the first remaining tab when the indexed access is `undefined`
or the id is the falsy empty string. -/
def closeTabActiveUpdate (tabs : List Tab) (activeId closedId : String) : String :=
  let currentIndex : Int :=
    match tabs.findIdx? (fun t => t.id == activeId) with
    | some i => (i : Int)
    | none => -1
  let newTabs := tabs.filter (fun t => t.id != closedId)
  if newTabs.length == 0 then ""
  else
    let newIndex := min currentIndex ((newTabs.length : Int) - 1)
    match (jsIndex newTabs newIndex).map Tab.id with
    | some tid => if tid == "" then headId newTabs else tid
    | none => headId newTabs

/-- `closeTab` (App.tsx lines 84-104): remove the tab (the backend
`close_browser_tab` notification is fire-and-forget and does not affect
state); when no tab remains, replace the list with one fresh blank tab; when
the closed tab was active, recompute the active id by index clamping. -/
def closeTabFn (s : TabState) (closedId : String) (freshTs : Nat) : TabState :=
  let newTabs := s.tabs.filter (fun t => t.id != closedId)
  let tabs2 := if newTabs.isEmpty then [freshTab (toString freshTs)] else newTabs
  let active2 :=
    if s.activeTabId == closedId then
      closeTabActiveUpdate s.tabs s.activeTabId closedId
    else s.activeTabId
  { tabs := tabs2, activeTabId := active2 }

/-- The tab the app treats as active:
`tabs.find(t => t.id === activeTabId) || tabs[0]` (App.tsx line 165). -/
def activeTab (s : TabState) : Option Tab :=
  match s.tabs.find? (fun t => t.id == s.activeTabId) with
  | some t => some t
  | none => s.tabs.head?

/-- One user-visible registry operation; each carries the `Date.now()`
timestamp the handler would observe. -/
inductive TabOp where
  | openOp (ts : Nat)
  | closeOp (id : String) (ts : Nat)

def applyTabOp (s : TabState) : TabOp → TabState
  | .openOp ts => addTab s ts
  | .closeOp id ts => closeTabFn s id ts

/-- Run a sequence of open/close operations from the initial single-tab
state. -/
def runTabOps (ops : List TabOp) : TabState :=
  ops.foldl applyTabOp initTabState

/-! ## NavigationResolver (src/App.tsx lines 112-119)

The URL-classification prefix of `navigateTo` is a pure function of the
input string. -/

def searchEngineBase : String := "https://duckduckgo.com/?q="

/-- The classification in `navigateTo` (App.tsx lines 113-119): inputs with
no dot or with a space become search URLs built from the percent-encoded raw
input; otherwise inputs not starting with `http://` or `https://` get
`https://` prepended; otherwise the input passes through unchanged. -/
def resolve (url : String) : String :=
  if !(jsContainsChar url '.') || jsContainsChar url ' ' then
    searchEngineBase ++ encodeURIComponent url
  else if !(jsStartsWith url "http://") && !(jsStartsWith url "https://") then
    "https://" ++ url
  else url

/-- Formalisation of the spec's phrase "explicit scheme" (spec section 4.2),
read by the RFC 3986 grammar: a letter followed by letters, digits, `+`,
`-` or `.`, terminated by a colon.  Used only to compare the spec's wording
with the source's actual check. -/
def schemeTailChar (c : Char) : Bool :=
  c.isAlpha || c.isDigit || c == '+' || c == '-' || c == '.'

def hasSchemeColon : List Char → Bool
  | [] => false
  | c :: rest => if c == ':' then true else schemeTailChar c && hasSchemeColon rest

def hasExplicitScheme (url : String) : Bool :=
  match url.data with
  | [] => false
  | c :: rest => c.isAlpha && hasSchemeColon rest

/-! ## IdentityController (src/App.tsx lines 145-163)

`regenerateIdentity` awaits `regenerate_identity`, adopts the returned
session id, then awaits a `Promise.all` of the three detail fetches; the
whole body sits in one `try`, so a rejection anywhere later in the body
leaves the earlier writes in place and skips the later ones. -/

structure FakeFingerprint where
  sessionId : String
  canvasNoiseSeed : Int
  webglVendor : String
  webglRenderer : String
  audioNoiseSeed : Int
  hardwareConcurrency : Nat
  deviceMemory : Nat
deriving DecidableEq

structure FakeGeolocation where
  latitude : Int
  longitude : Int
  accuracy : Nat
  city : String
  country : String
  countryCode : String
deriving DecidableEq

structure FakeUserAgent where
  full : String
  platform : String
  vendor : String
  browserName : String
  browserVersion : String
  osName : String
  osVersion : String
deriving DecidableEq

/-- Payload of a successful `regenerate_identity` call. -/
structure RegeneratedIdentity where
  fingerprint : FakeFingerprint
  geolocation : FakeGeolocation
  userAgent : FakeUserAgent
deriving DecidableEq

/-- The privacy-related React state of `App`: `privacyStatus.identityId`
plus the three nullable detail objects of `privacyDetails`. -/
structure PrivacyState where
  identityId : String
  fingerprint : Option FakeFingerprint
  geolocation : Option FakeGeolocation
  userAgent : Option FakeUserAgent
deriving DecidableEq

/-- JavaScript `Promise.all` over three independent calls: succeeds with the
triple when all three succeed, otherwise rejects. -/
def promiseAll3 {E A B C : Type} :
    Except E A → Except E B → Except E C → Except E (A × B × C)
  | .error e, _, _ => .error e
  | .ok _, .error e, _ => .error e
  | .ok _, .ok _, .error e => .error e
  | .ok a, .ok b, .ok c => .ok (a, b, c)

/-- `regenerateIdentity` (App.tsx lines 145-163).  The arguments supply the
outcome of `regenerate_identity` and of the three concurrent detail fetches
(`get_fake_fingerprint`, `get_fake_geolocation`, `get_fake_user_agent`). -/
def regenerateIdentity (s : PrivacyState)
    (regen : Except String RegeneratedIdentity)
    (fpR : Except String FakeFingerprint)
    (geoR : Except String FakeGeolocation)
    (uaR : Except String FakeUserAgent) : PrivacyState :=
  match regen with
  | .error _ => s
  | .ok identity =>
    let s1 := { s with identityId := identity.fingerprint.sessionId }
    match promiseAll3 fpR geoR uaR with
    | .error _ => s1
    | .ok (fp, geo, ua) =>
      { s1 with fingerprint := some fp, geolocation := some geo, userAgent := some ua }

/-! ## AuthGate (src/components/SettingsPanel.tsx)

The settings and logs auth domains are six React states of `SettingsPanel`.
Unlock handlers receive the backend verification outcome; the `isOpen`
effect (lines 145-155) resets all six whenever the panel opens. -/

structure LogEntry where
  id : String
  timestamp : String
  level : String
  category : String
  message : String
deriving DecidableEq

structure AuthState where
  isAuthenticated : Bool
  settingsPassword : String
  settingsPasswordError : String
  isLogsAuthenticated : Bool
  logsPassword : String
  logsPasswordError : String
  logs : List LogEntry
deriving DecidableEq

/-- `handleSettingsLogin` (SettingsPanel.tsx lines 65-80): on a verified
password unlock the settings domain and clear its error; on a rejected
password or a failed call record a settings-domain error message.  (The
data loads it triggers touch no auth-domain state.) -/
def handleSettingsLogin (s : AuthState) (result : Except String Bool) : AuthState :=
  match result with
  | .ok true => { s with isAuthenticated := true, settingsPasswordError := "" }
  | .ok false => { s with settingsPasswordError := "Incorrect password" }
  | .error _ => { s with settingsPasswordError := "Authentication failed" }

/-- `handleLogsLogin` (SettingsPanel.tsx lines 109-128): on success unlock
the logs domain, clear its error, and load the encrypted log (keeping the
prior list when that inner fetch fails). -/
def handleLogsLogin (s : AuthState) (result : Except String Bool)
    (logData : Except String (List LogEntry)) : AuthState :=
  match result with
  | .ok true =>
    let s1 := { s with isLogsAuthenticated := true, logsPasswordError := "" }
    match logData with
    | .ok ld => { s1 with logs := ld }
    | .error _ => s1
  | .ok false => { s with logsPasswordError := "Incorrect password" }
  | .error _ => { s with logsPasswordError := "Authentication failed" }

/-- The `isOpen` effect (SettingsPanel.tsx lines 145-155): reopening the
panel locks both domains and clears both passwords and both error
messages. -/
def panelOpenEffect (s : AuthState) : AuthState :=
  { s with isAuthenticated := false, isLogsAuthenticated := false,
           settingsPassword := "", logsPassword := "",
           settingsPasswordError := "", logsPasswordError := "" }

/-- `handleClose` (SettingsPanel.tsx lines 131-143): closing locks both
domains and clears both passwords (the backend lock calls carry no client
state). -/
def handleClose (s : AuthState) : AuthState :=
  { s with isAuthenticated := false, isLogsAuthenticated := false,
           settingsPassword := "", logsPassword := "" }

/-! ## Settings toggles (src/components/SettingsPanel.tsx lines 313-325) -/

inductive SettingKey where
  | torEnabled | httpsOnly | blockTrackers | blockMalware | scanDownloads
  | stripMetadata | blockWebRTC | fakeGeolocation | spoofFingerprint
  | stripReferrer | partitionStorage | autoRegenerateIdentity
  | secureKeyboard | blockAds
deriving DecidableEq

structure Settings where
  torEnabled : Bool
  httpsOnly : Bool
  blockTrackers : Bool
  blockMalware : Bool
  scanDownloads : Bool
  stripMetadata : Bool
  blockWebRTC : Bool
  fakeGeolocation : Bool
  spoofFingerprint : Bool
  stripReferrer : Bool
  partitionStorage : Bool
  autoRegenerateIdentity : Bool
  secureKeyboard : Bool
  blockAds : Bool
deriving DecidableEq

def getSetting (s : Settings) : SettingKey → Bool
  | .torEnabled => s.torEnabled
  | .httpsOnly => s.httpsOnly
  | .blockTrackers => s.blockTrackers
  | .blockMalware => s.blockMalware
  | .scanDownloads => s.scanDownloads
  | .stripMetadata => s.stripMetadata
  | .blockWebRTC => s.blockWebRTC
  | .fakeGeolocation => s.fakeGeolocation
  | .spoofFingerprint => s.spoofFingerprint
  | .stripReferrer => s.stripReferrer
  | .partitionStorage => s.partitionStorage
  | .autoRegenerateIdentity => s.autoRegenerateIdentity
  | .secureKeyboard => s.secureKeyboard
  | .blockAds => s.blockAds

def setSetting (s : Settings) (k : SettingKey) (v : Bool) : Settings :=
  match k with
  | .torEnabled => { s with torEnabled := v }
  | .httpsOnly => { s with httpsOnly := v }
  | .blockTrackers => { s with blockTrackers := v }
  | .blockMalware => { s with blockMalware := v }
  | .scanDownloads => { s with scanDownloads := v }
  | .stripMetadata => { s with stripMetadata := v }
  | .blockWebRTC => { s with blockWebRTC := v }
  | .fakeGeolocation => { s with fakeGeolocation := v }
  | .spoofFingerprint => { s with spoofFingerprint := v }
  | .stripReferrer => { s with stripReferrer := v }
  | .partitionStorage => { s with partitionStorage := v }
  | .autoRegenerateIdentity => { s with autoRegenerateIdentity := v }
  | .secureKeyboard => { s with secureKeyboard := v }
  | .blockAds => { s with blockAds := v }

/-- The optimistic local flip performed by `toggleSetting` before the
persistence call resolves (SettingsPanel.tsx lines 314-315). -/
def toggleSettingOptimistic (s : Settings) (k : SettingKey) : Settings :=
  setSetting s k (!(getSetting s k))

/-- `toggleSetting` (SettingsPanel.tsx lines 313-325): flip locally, then
persist via `set_setting`; on failure revert the flip. -/
def toggleSetting (s : Settings) (k : SettingKey)
    (persist : Except String Unit) : Settings :=
  let newValue := !(getSetting s k)
  let s1 := setSetting s k newValue
  match persist with
  | .ok _ => s1
  | .error _ => setSetting s1 k (!newValue)

/-! ## ToolSessionManager: remote shell (src/components/ITToolsPanel)

The shell session state of `ITToolsPanel`; each handler takes the awaited
outcome of its backend call. -/

structure ShellState where
  sshHost : String
  sshPort : String
  sshUser : String
  sshPassword : String
  sshConnected : Bool
  sshOutput : List String
  sshCommand : String
  connectionId : String
  isLoading : Bool
deriving DecidableEq

/-- Payload of a successful `ssh_connect` call. -/
structure SshConnectOk where
  id : String
deriving DecidableEq

/-- Payload of a successful `ssh_execute` call; both streams are optional
and the handler treats an empty string like an absent one (JS truthiness). -/
structure SshExecOk where
  stdout : Option String
  stderr : Option String
deriving DecidableEq

/-- `handleSshConnect` (ITToolsPanel lines 256-276).  Note the first write:
`setSshOutput(['Connecting to ' + sshHost + '...'])` REPLACES the whole
output log with a one-line list; the success and error lines are then
appended to that fresh list. -/
def handleSshConnect (s : ShellState) (result : Except String SshConnectOk) :
    ShellState :=
  let base := ["Connecting to " ++ s.sshHost ++ "..."]
  match result with
  | .ok r =>
    { s with isLoading := false, sshOutput := base ++ ["Connected successfully!", ""],
             connectionId := r.id, sshConnected := true }
  | .error e =>
    { s with isLoading := false, sshOutput := base ++ ["Error: " ++ e] }

/-- `handleSshExecute` (ITToolsPanel lines 289-311): ignore blank commands;
echo the command, then append stdout and stderr lines when present and
non-empty, clearing the command on success; on failure append an error
line. -/
def handleSshExecute (s : ShellState) (result : Except String SshExecOk) :
    ShellState :=
  if jsTrim s.sshCommand == "" then s
  else
    let s0 := { s with sshOutput := s.sshOutput ++ ["$ " ++ s.sshCommand] }
    match result with
    | .ok r =>
      let s1 :=
        match r.stdout with
        | some out => if out == "" then s0 else { s0 with sshOutput := s0.sshOutput ++ [out] }
        | none => s0
      let s2 :=
        match r.stderr with
        | some err => if err == "" then s1 else { s1 with sshOutput := s1.sshOutput ++ ["stderr: " ++ err] }
        | none => s1
      { s2 with sshCommand := "" }
    | .error e => { s0 with sshOutput := s0.sshOutput ++ ["Error: " ++ e] }

/-- `handleSshDisconnect` (ITToolsPanel lines 278-287). -/
def handleSshDisconnect (s : ShellState) (result : Except String Unit) :
    ShellState :=
  match result with
  | .ok _ =>
    { s with sshConnected := false, sshOutput := s.sshOutput ++ ["Disconnected."],
             connectionId := "" }
  | .error e => { s with sshOutput := s.sshOutput ++ ["Error: " ++ e] }

/-! ## Network diagnostics: port-list parsing (ITToolsPanel line 328) -/

/-- The port list built inside `handlePortScan`:
`portRange.split(',').map(p => parseInt(p.trim())).filter(p => !isNaN(p))`. -/
def parsePorts (portRange : String) : List Int :=
  (((jsSplitChar portRange ',').map (fun p => jsParseInt (jsTrim p))).filter
    Option.isSome).filterMap id

/-! ## DownloadTracker (src/components/DownloadManager)

`loadDownloads` runs on every poll tick; on success it replaces the local
mirror and recomputes all five aggregate counters from the response. -/

/-- A download record as returned by `get_downloads`.  Numeric sizes are
`Option Nat` because the backend fields are nullable/optional. -/
structure BackendDownload where
  id : String
  url : String
  filename : String
  size_total : Option Nat
  size_downloaded : Option Nat
  state : String
  error : Option String
  file_hash : Option String
deriving DecidableEq

/-- A mirrored item as stored in the `downloads` React state: the backend
record plus the derived `size`, `downloaded` and `status` fields
(DownloadManager lines 948-953, with JS `||` falsiness on 0). -/
structure MirrorDownload where
  item : BackendDownload
  size : Option Nat
  downloaded : Nat
  status : String
deriving DecidableEq

/-- JS `x || null` on a nullable number: 0 and null both give null. -/
def jsOrNull (o : Option Nat) : Option Nat :=
  match o with
  | some n => if n == 0 then none else some n
  | none => none

def toMirror (d : BackendDownload) : MirrorDownload :=
  { item := d, size := jsOrNull d.size_total,
    downloaded := d.size_downloaded.getD 0, status := d.state }

structure DownloadStats where
  total_downloads : Nat
  total_scanned : Nat
  threats_blocked : Nat
  pending : Nat
  in_progress : Nat
deriving DecidableEq

/-- JS `o?.includes(sub)` used as a boolean: false when `o` is null. -/
def jsOptIncludes (o : Option String) (sub : String) : Bool :=
  match o with
  | some s => strContainsSubstr s sub
  | none => false

/-- The `setStats` computation of `loadDownloads` (DownloadManager lines
956-962). -/
def computeStats (data : List BackendDownload) : DownloadStats :=
  { total_downloads := data.length
  , total_scanned := (data.filter (fun d => d.state == "Completed" || d.state == "Safe")).length
  , threats_blocked := (data.filter (fun d => d.state == "Failed" && jsOptIncludes d.error "threat")).length
  , pending := (data.filter (fun d => d.state == "Pending")).length
  , in_progress := (data.filter (fun d => d.state == "Downloading")).length }

structure DownloadManagerState where
  downloads : List MirrorDownload
  stats : DownloadStats
deriving DecidableEq

/-- `loadDownloads` (DownloadManager lines 944-966): on success replace the
mirror and the stats entirely from the response; on failure leave state
untouched. -/
def loadDownloads (s : DownloadManagerState)
    (resp : Except String (List BackendDownload)) : DownloadManagerState :=
  match resp with
  | .error _ => s
  | .ok data => { downloads := data.map toMirror, stats := computeStats data }

/-! ## KeyboardInputMachine (src/components/VirtualKeyboard)

`handleKeyPress` dispatches on the tagged outcome of
`process_virtual_key`. -/

/-- Tagged outcome of `process_virtual_key`.  The `Character` payload is the
code the handler feeds to `String.fromCharCode` when present; the handler
falls back to the pressed key's own string when the payload field is
absent. -/
inductive KeyOutcome where
  | character (code : Option Nat)
  | backspace
  | enter
  | space
  | modifierToggled (modifier : String) (active : Bool)
  | other (tag : String)
deriving DecidableEq

structure KeyboardState where
  isShift : Bool
  isCaps : Bool
  inputValue : String
deriving DecidableEq

/-- JavaScript `String.fromCharCode` on a single code unit (codes in this
app are plain characters, below the surrogate range). -/
def jsFromCharCode (n : Nat) : String :=
  String.singleton (Char.ofNat (n % 65536))

/-- JavaScript `s.slice(0, -1)`: drop the last character; the empty string
maps to itself. -/
def jsDropLast (s : String) : String := String.mk s.data.dropLast

/-- `handleKeyPress` (VirtualKeyboard lines 691-720).  A rejected
`process_virtual_key` call is caught and leaves the state unchanged. -/
def handleKeyPress (s : KeyboardState) (key : String)
    (result : Except String KeyOutcome) : KeyboardState :=
  match result with
  | .error _ => s
  | .ok o =>
    match o with
    | .character code =>
      { s with inputValue := s.inputValue ++
          (match code with
           | some n => jsFromCharCode n
           | none => key) }
    | .backspace => { s with inputValue := jsDropLast s.inputValue }
    | .enter => s
    | .space => { s with inputValue := s.inputValue ++ " " }
    | .modifierToggled m a =>
      if m == "Shift" then { s with isShift := a }
      else if m == "CapsLock" then { s with isCaps := a }
      else s
    | .other _ => s

/-! ## Shared helper lemmas and example states -/

theorem getSetting_setSetting (s : Settings) (k : SettingKey) (v : Bool) :
    getSetting (setSetting s k v) k = v := by
  cases k <;> rfl

theorem filterSome_eq_filterMap {α β : Type} (f : α → Option β) (l : List α) :
    (((l.map f).filter Option.isSome).filterMap id) = l.filterMap f := by
  induction l with
  | nil => rfl
  | cons a tl ih => cases h : f a <;> simp [h, ih]

theorem applyTabOp_tabs_nonempty (s : TabState) (op : TabOp) :
    1 ≤ (applyTabOp s op).tabs.length := by
  cases op with
  | openOp ts => simp [applyTabOp, addTab]
  | closeOp id ts =>
    by_cases hE : (s.tabs.filter (fun t => t.id != id)).isEmpty = true
    · simp [applyTabOp, closeTabFn, hE]
    · have hne : s.tabs.filter (fun t => t.id != id) ≠ [] := by
        intro hnil; rw [hnil] at hE; exact hE rfl
      have hpos := List.length_pos.mpr hne
      simp [applyTabOp, closeTabFn, hE]
      omega

theorem list_find_of_nodup_getElem (l : List Tab) :
    ∀ (j : Nat) (t : Tab), (l.map Tab.id).Nodup → l[j]? = some t →
      l.find? (fun x => x.id == t.id) = some t := by
  induction l with
  | nil => intro j t _ hj; simp at hj
  | cons h tl ih =>
    intro j t hnd hj
    rw [List.map_cons, List.nodup_cons] at hnd
    cases j with
    | zero =>
      rw [List.getElem?_cons_zero, Option.some_inj] at hj
      subst hj
      exact List.find?_cons_of_pos _ (by simp)
    | succ n =>
      rw [List.getElem?_cons_succ] at hj
      have htmem : t ∈ tl := by
        obtain ⟨hlt, hEq⟩ := List.getElem?_eq_some.mp hj
        exact hEq ▸ List.getElem_mem hlt
      have hneq : (h.id == t.id) = false := by
        refine beq_eq_false_iff_ne.mpr ?_
        intro he
        exact hnd.1 (he ▸ List.mem_map_of_mem Tab.id htmem)
      rw [List.find?_cons_of_neg _ (by simp [hneq])]
      exact ih n t hnd.2 hj

/-- Example two-tab registry state used by the close-active-tab witness. -/
def tabsEx : TabState :=
  { tabs := [freshTab "1",
      { id := "2", title := "Example", url := "https://example.com",
        isLoading := false, isSecure := true }],
    activeTabId := "1" }

/-- Example shell session holding one previously recorded log line. -/
def shellEx : ShellState :=
  { sshHost := "h", sshPort := "22", sshUser := "u", sshPassword := "p",
    sshConnected := false, sshOutput := ["previous line"], sshCommand := "",
    connectionId := "", isLoading := false }

/-- Example privacy state and identity payloads for the regeneration
witness. -/
def fpEx : FakeFingerprint :=
  { sessionId := "sess-new", canvasNoiseSeed := 1, webglVendor := "V",
    webglRenderer := "R", audioNoiseSeed := 2, hardwareConcurrency := 4,
    deviceMemory := 8 }

def geoEx : FakeGeolocation :=
  { latitude := 59, longitude := 10, accuracy := 25, city := "Oslo",
    country := "Norway", countryCode := "NO" }

def uaEx : FakeUserAgent :=
  { full := "Mozilla/5.0", platform := "Win32", vendor := "Google Inc.",
    browserName := "Chrome", browserVersion := "120.0", osName := "Windows",
    osVersion := "10" }

def identEx : RegeneratedIdentity :=
  { fingerprint := fpEx, geolocation := geoEx, userAgent := uaEx }

def pStateEx : PrivacyState :=
  { identityId := "sess-old", fingerprint := none, geolocation := none,
    userAgent := none }

/-- Example keyboard state with an empty input buffer. -/
def kbEx : KeyboardState := { isShift := false, isCaps := true, inputValue := "" }

/-! ## Claim theorems -/

/-- C1: for every sequence of open/close operations starting from the
initial single blank tab, the tab list is non-empty after each operation;
and closing the last remaining tab replaces the list with one fresh blank
tab with title "New Tab", empty url, not loading, marked secure. -/
theorem claim_C1_registry_nonempty :
    (∀ ops : List TabOp, 1 ≤ (runTabOps ops).tabs.length) ∧
    (∀ (s : TabState) (id : String) (ts : Nat),
      s.tabs.filter (fun t => t.id != id) = [] →
      (closeTabFn s id ts).tabs =
        [{ id := toString ts, title := "New Tab", url := "",
           isLoading := false, isSecure := true }]) := by
  constructor
  · have main : ∀ (ops : List TabOp) (s : TabState), 1 ≤ s.tabs.length →
        1 ≤ (ops.foldl applyTabOp s).tabs.length := by
      intro ops
      induction ops with
      | nil => intro s h; exact h
      | cons op tl ih => intro s h; exact ih _ (applyTabOp_tabs_nonempty s op)
    intro ops
    exact main ops initTabState (by decide)
  · intro s id ts h
    simp [closeTabFn, h, freshTab]

/-- Witness for C1: closing the only tab of the initial state yields the
single fresh blank tab. -/
theorem claim_C1_witness :
    initTabState.tabs.filter (fun t => t.id != "1") = [] ∧
    (closeTabFn initTabState "1" 5).tabs =
      [{ id := toString 5, title := "New Tab", url := "",
         isLoading := false, isSecure := true }] :=
  ⟨by decide, claim_C1_registry_nonempty.2 initTabState "1" 5 (by decide)⟩

/-- C2: closing the currently active tab (sitting at index `i` with unique,
non-empty tab ids) makes the remaining tab at index
`min i (newLength - 1)` the active tab; closing the last remaining tab
makes the freshly synthesized blank tab the active tab (the app derives the
active tab as `tabs.find(t => t.id === activeTabId) || tabs[0]`,
App.tsx line 165). -/
theorem claim_C2_close_active (s : TabState) (ts i : Nat)
    (hidx : s.tabs.findIdx? (fun t => t.id == s.activeTabId) = some i)
    (hnodup : (s.tabs.map Tab.id).Nodup)
    (hne : ∀ t ∈ s.tabs, t.id ≠ "") :
    (s.tabs.filter (fun t => t.id != s.activeTabId) ≠ [] →
      activeTab (closeTabFn s s.activeTabId ts) =
        (s.tabs.filter (fun t => t.id != s.activeTabId))[min i
          ((s.tabs.filter (fun t => t.id != s.activeTabId)).length - 1)]?) ∧
    (s.tabs.filter (fun t => t.id != s.activeTabId) = [] →
      activeTab (closeTabFn s s.activeTabId ts) = some (freshTab (toString ts))) := by
  constructor
  · intro hrem
    have hlen : 0 < (s.tabs.filter (fun t => t.id != s.activeTabId)).length :=
      List.length_pos.mpr hrem
    have hjlt : min i ((s.tabs.filter (fun t => t.id != s.activeTabId)).length - 1) <
        (s.tabs.filter (fun t => t.id != s.activeTabId)).length := by
      have h1 := Nat.min_le_right i ((s.tabs.filter (fun t => t.id != s.activeTabId)).length - 1)
      omega
    have hget : (s.tabs.filter (fun t => t.id != s.activeTabId))[min i
        ((s.tabs.filter (fun t => t.id != s.activeTabId)).length - 1)]? =
        some ((s.tabs.filter (fun t => t.id != s.activeTabId)).get ⟨_, hjlt⟩) := by
      rw [List.getElem?_eq_getElem hjlt]
      rfl
    have hE : (s.tabs.filter (fun t => t.id != s.activeTabId)).isEmpty = false := by
      cases hn : s.tabs.filter (fun t => t.id != s.activeTabId) with
      | nil => exact absurd hn hrem
      | cons a l => rfl
    have hclose : closeTabFn s s.activeTabId ts =
        { tabs := s.tabs.filter (fun t => t.id != s.activeTabId),
          activeTabId := closeTabActiveUpdate s.tabs s.activeTabId s.activeTabId } := by
      simp [closeTabFn, hE]
    have hlen0 : (((s.tabs.filter (fun t => t.id != s.activeTabId)).length == 0) : Bool) = false := by
      simp only [beq_eq_false_iff_ne]
      omega
    have hcast : min ((i : Int)) (((s.tabs.filter (fun t => t.id != s.activeTabId)).length : Int) - 1)
        = ((min i ((s.tabs.filter (fun t => t.id != s.activeTabId)).length - 1) : Nat) : Int) := by
      generalize (s.tabs.filter (fun t => t.id != s.activeTabId)).length = L at hlen ⊢
      rcases Nat.le_total i (L - 1) with hmin | hmin
      · rw [Nat.min_eq_left hmin, min_eq_left (by omega : (i : Int) ≤ (L : Int) - 1)]
      · rw [Nat.min_eq_right hmin, min_eq_right (by omega : (L : Int) - 1 ≤ (i : Int))]
        omega
    have hjs : jsIndex (s.tabs.filter (fun t => t.id != s.activeTabId))
        (((min i ((s.tabs.filter (fun t => t.id != s.activeTabId)).length - 1) : Nat) : Int))
        = some ((s.tabs.filter (fun t => t.id != s.activeTabId)).get ⟨_, hjlt⟩) := by
      simp only [jsIndex]
      rw [if_neg (by omega), Int.toNat_natCast]
      exact hget
    have htmem : ((s.tabs.filter (fun t => t.id != s.activeTabId)).get ⟨_, hjlt⟩) ∈ s.tabs :=
      List.mem_of_mem_filter (List.get_mem _ _ hjlt)
    have htid : ((((s.tabs.filter (fun t => t.id != s.activeTabId)).get ⟨_, hjlt⟩).id == "") : Bool) = false :=
      beq_eq_false_iff_ne.mpr (hne _ htmem)
    have hupd : closeTabActiveUpdate s.tabs s.activeTabId s.activeTabId =
        ((s.tabs.filter (fun t => t.id != s.activeTabId)).get ⟨_, hjlt⟩).id := by
      simp only [closeTabActiveUpdate, hidx, hlen0, hcast, hjs, Option.map_some]
      simp only [List.get_eq_getElem] at htid
      simp [htid]
    have hndNT : ((s.tabs.filter (fun t => t.id != s.activeTabId)).map Tab.id).Nodup :=
      List.Nodup.sublist (List.Sublist.map Tab.id (List.filter_sublist s.tabs)) hnodup
    have hfind := list_find_of_nodup_getElem
      (s.tabs.filter (fun t => t.id != s.activeTabId)) _ _ hndNT hget
    rw [hclose]
    simp only [activeTab]
    rw [hupd, hfind]
    exact hget.symm
  · intro hrem
    have hupd0 : closeTabActiveUpdate s.tabs s.activeTabId s.activeTabId = "" := by
      simp [closeTabActiveUpdate, hidx, hrem]
    have hclose0 : closeTabFn s s.activeTabId ts =
        { tabs := [freshTab (toString ts)], activeTabId := "" } := by
      simp [closeTabFn, hrem, hupd0]
    rw [hclose0]
    by_cases hq : (((freshTab (toString ts)).id == "") : Bool) = true
    · simp [activeTab, List.find?, hq]
    · simp [activeTab, List.find?, hq]

/-- Witness for C2: closing the active first tab of a two-tab registry
activates the remaining tab at the clamped index, and closing the only tab
of the initial registry activates the fresh blank tab. -/
theorem claim_C2_witness :
    tabsEx.tabs.findIdx? (fun t => t.id == tabsEx.activeTabId) = some 0 ∧
    (tabsEx.tabs.map Tab.id).Nodup ∧
    (∀ t ∈ tabsEx.tabs, t.id ≠ "") ∧
    tabsEx.tabs.filter (fun t => t.id != tabsEx.activeTabId) ≠ [] ∧
    activeTab (closeTabFn tabsEx tabsEx.activeTabId 7) =
      (tabsEx.tabs.filter (fun t => t.id != tabsEx.activeTabId))[min 0
        ((tabsEx.tabs.filter (fun t => t.id != tabsEx.activeTabId)).length - 1)]? ∧
    initTabState.tabs.filter (fun t => t.id != initTabState.activeTabId) = [] ∧
    activeTab (closeTabFn initTabState initTabState.activeTabId 9) =
      some (freshTab (toString 9)) := by
  refine ⟨by decide, by decide, by decide, by decide, ?_, by decide, ?_⟩
  · exact (claim_C2_close_active tabsEx 7 0 (by decide) (by decide)
      (by decide)).1 (by decide)
  · exact (claim_C2_close_active initTabState 9 0 (by decide) (by decide)
      (by decide)).2 (by decide)

/-- C3 counterexample: the claim says inputs carrying an explicit scheme are
returned unchanged, but the source only recognises `http://` and `https://`
prefixes: `ftp://x.com` carries an explicit scheme yet `resolve` prepends
`https://` and returns it changed. -/
theorem claim_C3_counterexample :
    hasExplicitScheme "ftp://x.com" = true ∧
    resolve "ftp://x.com" = "https://ftp://x.com" ∧
    "https://ftp://x.com" ≠ "ftp://x.com" := by
  refine ⟨by decide, by decide, by decide⟩

/-- C3 (amended): resolve classifies deterministically: an input containing
no dot or containing a space becomes the search-engine URL followed by the
percent-encoded raw input; otherwise an input that does not start with
"http://" or "https://" gets "https://" prepended; otherwise the input is
returned unchanged; with the three concrete examples of the claim. -/
theorem claim_C3_resolve (url : String) :
    (jsContainsChar url '.' = false ∨ jsContainsChar url ' ' = true →
      resolve url = searchEngineBase ++ encodeURIComponent url) ∧
    (jsContainsChar url '.' = true → jsContainsChar url ' ' = false →
      jsStartsWith url "http://" = false → jsStartsWith url "https://" = false →
      resolve url = "https://" ++ url) ∧
    (jsContainsChar url '.' = true → jsContainsChar url ' ' = false →
      (jsStartsWith url "http://" = true ∨ jsStartsWith url "https://" = true) →
      resolve url = url) ∧
    resolve "openai" = searchEngineBase ++ encodeURIComponent "openai" ∧
    resolve "example.com" = "https://example.com" ∧
    resolve "http://x.com" = "http://x.com" := by
  refine ⟨?_, ?_, ?_, by decide, by decide, by decide⟩
  · rintro (h | h) <;> simp [resolve, h]
  · intro h1 h2 h3 h4
    simp [resolve, h1, h2, h3, h4]
  · intro h1 h2 h3
    rcases h3 with h | h <;> simp [resolve, h1, h2, h]

/-- Witness for C3: each branch of the amended classification applied at a
concrete input. -/
theorem claim_C3_witness :
    jsContainsChar "openai" '.' = false ∧
    resolve "openai" = searchEngineBase ++ encodeURIComponent "openai" ∧
    resolve "example.com" = "https://" ++ "example.com" ∧
    resolve "http://x.com" = "http://x.com" :=
  ⟨by decide,
   (claim_C3_resolve "openai").1 (Or.inl (by decide)),
   (claim_C3_resolve "example.com").2.1 (by decide) (by decide) (by decide) (by decide),
   (claim_C3_resolve "http://x.com").2.2.1 (by decide) (by decide) (Or.inl (by decide))⟩

/-- C4: after a successful regenerate call, the identity id equals the
returned fingerprint's session id, and when any one of the three subsequent
concurrent detail fetches rejects, all three displayed detail objects
remain unchanged while the identity id keeps the newly adopted value. -/
theorem claim_C4_regenerate (s : PrivacyState) (identity : RegeneratedIdentity)
    (fpR : Except String FakeFingerprint) (geoR : Except String FakeGeolocation)
    (uaR : Except String FakeUserAgent)
    (hfail : (∃ e, fpR = .error e) ∨ (∃ e, geoR = .error e) ∨ (∃ e, uaR = .error e)) :
    (regenerateIdentity s (.ok identity) fpR geoR uaR).identityId
        = identity.fingerprint.sessionId ∧
    (regenerateIdentity s (.ok identity) fpR geoR uaR).fingerprint = s.fingerprint ∧
    (regenerateIdentity s (.ok identity) fpR geoR uaR).geolocation = s.geolocation ∧
    (regenerateIdentity s (.ok identity) fpR geoR uaR).userAgent = s.userAgent := by
  cases fpR <;> cases geoR <;> cases uaR <;>
    simp_all [regenerateIdentity, promiseAll3]

/-- Witness for C4: a failing fingerprint fetch after a successful
regenerate leaves all three detail objects untouched while the session id
has been adopted. -/
theorem claim_C4_witness :
    (∃ e, (Except.error "boom" : Except String FakeFingerprint) = .error e) ∧
    (regenerateIdentity pStateEx (.ok identEx) (.error "boom") (.ok geoEx) (.ok uaEx)).identityId
        = "sess-new" ∧
    (regenerateIdentity pStateEx (.ok identEx) (.error "boom") (.ok geoEx) (.ok uaEx)).fingerprint
        = none ∧
    (regenerateIdentity pStateEx (.ok identEx) (.error "boom") (.ok geoEx) (.ok uaEx)).geolocation
        = none ∧
    (regenerateIdentity pStateEx (.ok identEx) (.error "boom") (.ok geoEx) (.ok uaEx)).userAgent
        = none := by
  have h := claim_C4_regenerate pStateEx identEx (.error "boom") (.ok geoEx)
    (.ok uaEx) (Or.inl ⟨"boom", rfl⟩)
  exact ⟨⟨"boom", rfl⟩, h.1, h.2.1, h.2.2.1, h.2.2.2⟩

/-- C5: a successful settings unlock changes only the settings domain and
leaves every logs-domain field untouched; a successful logs unlock leaves
every settings-domain field untouched; reopening the panel starts both
domains locked with cleared passwords and error messages. -/
theorem claim_C5_auth_domains (s : AuthState) (logData : Except String (List LogEntry)) :
    ((handleSettingsLogin s (.ok true)).isAuthenticated = true ∧
     (handleSettingsLogin s (.ok true)).isLogsAuthenticated = s.isLogsAuthenticated ∧
     (handleSettingsLogin s (.ok true)).logsPassword = s.logsPassword ∧
     (handleSettingsLogin s (.ok true)).logsPasswordError = s.logsPasswordError) ∧
    ((handleLogsLogin s (.ok true) logData).isLogsAuthenticated = true ∧
     (handleLogsLogin s (.ok true) logData).isAuthenticated = s.isAuthenticated ∧
     (handleLogsLogin s (.ok true) logData).settingsPassword = s.settingsPassword ∧
     (handleLogsLogin s (.ok true) logData).settingsPasswordError = s.settingsPasswordError) ∧
    ((panelOpenEffect s).isAuthenticated = false ∧
     (panelOpenEffect s).isLogsAuthenticated = false ∧
     (panelOpenEffect s).settingsPassword = "" ∧
     (panelOpenEffect s).logsPassword = "" ∧
     (panelOpenEffect s).settingsPasswordError = "" ∧
     (panelOpenEffect s).logsPasswordError = "") := by
  refine ⟨⟨rfl, rfl, rfl, rfl⟩, ?_, ⟨rfl, rfl, rfl, rfl, rfl, rfl⟩⟩
  cases logData <;> simp [handleLogsLogin]

/-- C6: toggling a setting first flips the displayed value to the negation
of its pre-click value; a failed persistence call rolls the displayed value
back to exactly the pre-click value, so it is never left on the optimistic
value. -/
theorem claim_C6_toggle_rollback (s : Settings) (k : SettingKey) (e : String) :
    getSetting (toggleSettingOptimistic s k) k = !(getSetting s k) ∧
    toggleSetting s k (.ok ()) = toggleSettingOptimistic s k ∧
    getSetting (toggleSetting s k (.error e)) k = getSetting s k ∧
    getSetting (toggleSetting s k (.error e)) k ≠
      getSetting (toggleSettingOptimistic s k) k := by
  refine ⟨getSetting_setSetting s k _, rfl, ?_, ?_⟩
  · simp [toggleSetting, getSetting_setSetting]
  · simp [toggleSetting, toggleSettingOptimistic, getSetting_setSetting]

/-- C7 counterexample: the claim says connect only appends to the existing
log, but `handleSshConnect` replaces the whole log with the single
connecting line, so a previously recorded line disappears. -/
theorem claim_C7_counterexample :
    shellEx.sshOutput = ["previous line"] ∧
    (handleSshConnect shellEx (.ok { id := "c1" })).sshOutput =
      ["Connecting to h...", "Connected successfully!", ""] ∧
    "previous line" ∉ (handleSshConnect shellEx (.ok { id := "c1" })).sshOutput := by
  refine ⟨rfl, by decide, by decide⟩

/-- C7 (amended): connect resets the output log to the single connecting
line and then only appends the success or error line after it; execute and
disconnect only append lines to the existing log. -/
theorem claim_C7_log_discipline (s : ShellState)
    (rc : Except String SshConnectOk) (re : Except String SshExecOk)
    (rd : Except String Unit) :
    (∃ t, (handleSshConnect s rc).sshOutput
        = ["Connecting to " ++ s.sshHost ++ "..."] ++ t) ∧
    (∃ t, (handleSshExecute s re).sshOutput = s.sshOutput ++ t) ∧
    (∃ t, (handleSshDisconnect s rd).sshOutput = s.sshOutput ++ t) := by
  refine ⟨?_, ?_, ?_⟩
  · cases rc <;> exact ⟨_, rfl⟩
  · by_cases hc : (jsTrim s.sshCommand == "") = true
    · exact ⟨[], by simp [handleSshExecute, hc]⟩
    · cases re with
      | error e => exact ⟨_, by simp [handleSshExecute, hc]; rfl⟩
      | ok r =>
        rcases hso : r.stdout with _ | out <;> rcases hse : r.stderr with _ | err
        · exact ⟨_, by simp [handleSshExecute, hc, hso, hse]; rfl⟩
        · by_cases he : (err == "") = true <;>
            exact ⟨_, by simp [handleSshExecute, hc, hso, hse, he]; rfl⟩
        · by_cases ho : (out == "") = true <;>
            exact ⟨_, by simp [handleSshExecute, hc, hso, hse, ho]; rfl⟩
        · by_cases ho : (out == "") = true <;> by_cases he : (err == "") = true <;>
            exact ⟨_, by simp [handleSshExecute, hc, hso, hse, ho, he]; rfl⟩
  · cases rd <;> exact ⟨_, rfl⟩

/-- C8: every successful poll tick fully replaces the download mirror from
the backend snapshot and recomputes all five aggregate counters purely from
that snapshot — the result does not depend on the previous state. -/
theorem claim_C8_poll (s s2 : DownloadManagerState) (data : List BackendDownload) :
    loadDownloads s (.ok data) = loadDownloads s2 (.ok data) ∧
    (loadDownloads s (.ok data)).downloads = data.map toMirror ∧
    (loadDownloads s (.ok data)).stats.total_downloads = data.length ∧
    (loadDownloads s (.ok data)).stats.total_scanned
        = data.countP (fun d => d.state == "Completed" || d.state == "Safe") ∧
    (loadDownloads s (.ok data)).stats.threats_blocked
        = data.countP (fun d => d.state == "Failed" && jsOptIncludes d.error "threat") ∧
    (loadDownloads s (.ok data)).stats.pending
        = data.countP (fun d => d.state == "Pending") ∧
    (loadDownloads s (.ok data)).stats.in_progress
        = data.countP (fun d => d.state == "Downloading") := by
  refine ⟨rfl, rfl, rfl, ?_, ?_, ?_, ?_⟩ <;>
    simp [loadDownloads, computeStats, List.countP_eq_length_filter]

/-- C9: the port-scan list is parsed by splitting on commas, trimming each
entry and keeping exactly the entries that parse as numbers; in particular
"22, abc, 80" parses to [22, 80]. -/
theorem claim_C9_ports (s : String) :
    parsePorts "22, abc, 80" = [22, 80] ∧
    parsePorts s = (jsSplitChar s ',').filterMap (fun p => jsParseInt (jsTrim p)) :=
  ⟨by decide, filterSome_eq_filterMap _ _⟩

/-- C10: a Backspace outcome on an empty input buffer leaves the buffer
empty (total, no error) and leaves the modifier flags unchanged. -/
theorem claim_C10_backspace (s : KeyboardState) (key : String)
    (h : s.inputValue = "") :
    (handleKeyPress s key (.ok .backspace)).inputValue = "" ∧
    (handleKeyPress s key (.ok .backspace)).isShift = s.isShift ∧
    (handleKeyPress s key (.ok .backspace)).isCaps = s.isCaps := by
  refine ⟨?_, rfl, rfl⟩
  simp [handleKeyPress, jsDropLast, h]

/-- Witness for C10: Backspace on a concrete empty-buffer state. -/
theorem claim_C10_witness :
    kbEx.inputValue = "" ∧
    (handleKeyPress kbEx "a" (.ok .backspace)).inputValue = "" :=
  ⟨rfl, (claim_C10_backspace kbEx "a" rfl).1⟩
